import Mathlib

/-!
Verification of the periodic alerting scheduler of the kubedeck operator
(internal/controller/telegram_bot.go and its extended revision, together
with the recommendation types of internal/controller/llm.go).

The repository carries two revisions of the alerting module; the extended
revision additionally stores a response-style hint in the settings and
formats the technical alert message (formatTechnicalAlertMessage) with a
scan timestamp and a bounded list of the most severe pod names.  The
definitions below embed the extended revision; for every function also
present in the base revision the two bodies agree except where noted.

Modelling conventions:
- Go strings are Lean String, int and int64 are Int, slices are List.
- Go maps are embedded as functions into Option (for the alert tracker)
  or as association lists in iteration order (for the per-namespace data).
- time.Time is an Int count of nanoseconds; Duration comparisons such as
  now.Sub(last).Hours() >= 4 are embedded as the exact integer comparison
  windowNanos <= now - last (the float64 division by Hours is exact up to
  a rounding band that the specification does not distinguish).
- A Go channel close-and-replace of stopChan is embedded as incrementing
  a generation counter stopGen: closing the current channel and
  installing a fresh one is exactly one generation step.
- Side effects of the check cycle (collector call, LLM call, transport
  call) are embedded by passing the collaborators' results as explicit
  arguments; the observable behaviour of one cycle is the list of send
  attempts it makes, each recording recipient, text, token and the
  transport's result for that attempt.
-/

namespace Kubedeck

/-- TelegramBotConfig from telegram_bot.go (extended revision): a partial
update; an absent JSON field decodes to the zero value of its type. -/
structure TelegramBotConfig where
  token : String
  checkInterval : Int
  chatIDs : List Int
  responseStyle : String
deriving DecidableEq

/-- Default values and the built-in default chat list from telegram_bot.go. -/
def defaultTelegramBotToken : String := "7803977827:AAE8aSbXaiwDl2_nHVZBSTyws_VVgsGwrVE"

/-- defaultCheckInterval constant: 2700 seconds (45 minutes). -/
def defaultCheckInterval : Int := 2700

/-- AlertDeduplicationWindow constant: the dedup window in hours. -/
def AlertDeduplicationWindow : Int := 4

/-- Nanoseconds per hour (time.Hour). -/
def nanosPerHour : Int := 3600 * 1000000000

/-- The dedup window as a nanosecond duration (time.Hour * AlertDeduplicationWindow). -/
def windowNanos : Int := AlertDeduplicationWindow * nanosPerHour

/-- ChatIDs package variable: built-in default recipient list. -/
def ChatIDs : List Int := [-4835116305]

/-- TelegramBotSettings (extended revision): live configuration guarded by
a lock in the source; stopGen counts how many times stopChan has been
closed and replaced. -/
structure TelegramBotSettings where
  token : String
  checkInterval : Int
  chatIDs : List Int
  responseStyle : String
  active : Bool
  stopGen : Nat
deriving DecidableEq

/-- NewTelegramBotSettings: defaults at process start. -/
def NewTelegramBotSettings : TelegramBotSettings :=
  { token := defaultTelegramBotToken
    checkInterval := defaultCheckInterval
    chatIDs := ChatIDs
    responseStyle := "Технический отчет о состоянии ресурсов Kubernetes с рекомендациями."
    active := false
    stopGen := 0 }

/-- equalChatIDs from telegram_bot.go: length check, then element-wise
comparison at equal indices. -/
def equalChatIDs (a b : List Int) : Bool :=
  a.length == b.length && (a.zip b).all fun p => p.1 == p.2

/-- UpdateSettings from telegram_bot.go (extended revision).  Each field is
replaced when supplied with a valid value that differs from the stored
one; when anything changed and the bot is active the stop channel is
closed and replaced (stopGen increments).  Returns the new state and the
changed flag. -/
def UpdateSettings (s : TelegramBotSettings) (config : TelegramBotConfig) :
    TelegramBotSettings × Bool :=
  let p1 : TelegramBotSettings × Bool :=
    if config.token ≠ "" ∧ config.token ≠ s.token then
      ({ s with token := config.token }, true)
    else (s, false)
  let p2 : TelegramBotSettings × Bool :=
    if 0 < config.checkInterval ∧ config.checkInterval ≠ p1.1.checkInterval then
      ({ p1.1 with checkInterval := config.checkInterval }, true)
    else p1
  -- the source nests these two conditions (the inner if has no else
  -- effect), which is the same as their conjunction
  let p3 : TelegramBotSettings × Bool :=
    if 0 < config.chatIDs.length ∧ equalChatIDs p2.1.chatIDs config.chatIDs = false then
      ({ p2.1 with chatIDs := config.chatIDs }, true)
    else p2
  let p4 : TelegramBotSettings × Bool :=
    if config.responseStyle ≠ "" ∧ config.responseStyle ≠ p3.1.responseStyle then
      ({ p3.1 with responseStyle := config.responseStyle }, true)
    else p3
  let s5 : TelegramBotSettings :=
    if p4.2 = true ∧ p4.1.active = true then { p4.1 with stopGen := p4.1.stopGen + 1 }
    else p4.1
  (s5, p4.2)

theorem equalChatIDs_eq_true_iff (a b : List Int) : equalChatIDs a b = true ↔ a = b := by
  induction a generalizing b with
  | nil => cases b <;> simp [equalChatIDs]
  | cons x xs ih =>
    cases b with
    | nil => simp [equalChatIDs]
    | cons y ys =>
      simp only [equalChatIDs, List.length_cons, List.zip_cons_cons, List.all_cons,
        Bool.and_eq_true, beq_iff_eq, List.all_eq_true, List.cons.injEq]
      rw [← ih ys]
      simp only [equalChatIDs, Bool.and_eq_true, beq_iff_eq, List.all_eq_true]
      constructor
      · rintro ⟨hlen, hx, hall⟩
        exact ⟨hx, by omega, hall⟩
      · rintro ⟨hx, hlen, hall⟩
        exact ⟨by omega, hx, hall⟩

theorem equalChatIDs_eq_false_iff (a b : List Int) : equalChatIDs a b = false ↔ a ≠ b := by
  rw [← Bool.not_eq_true, not_iff_not]
  exact equalChatIDs_eq_true_iff a b

/-- Helper: full characterization of UpdateSettings, shared by the claims
about the settings store. -/
theorem updateSettings_characterization
    (s : TelegramBotSettings) (c : TelegramBotConfig) :
    ((UpdateSettings s c).1.token =
      if c.token ≠ "" ∧ c.token ≠ s.token then c.token else s.token)
    ∧ ((UpdateSettings s c).1.checkInterval =
      if 0 < c.checkInterval ∧ c.checkInterval ≠ s.checkInterval then c.checkInterval
      else s.checkInterval)
    ∧ ((UpdateSettings s c).1.chatIDs =
      if c.chatIDs ≠ [] ∧ s.chatIDs ≠ c.chatIDs then c.chatIDs else s.chatIDs)
    ∧ ((UpdateSettings s c).1.responseStyle =
      if c.responseStyle ≠ "" ∧ c.responseStyle ≠ s.responseStyle then c.responseStyle
      else s.responseStyle)
    ∧ ((UpdateSettings s c).1.active = s.active)
    ∧ ((UpdateSettings s c).1.stopGen =
      if (UpdateSettings s c).2 = true ∧ s.active = true then s.stopGen + 1 else s.stopGen)
    ∧ ((UpdateSettings s c).2 = true ↔
      ((c.token ≠ "" ∧ c.token ≠ s.token)
        ∨ (0 < c.checkInterval ∧ c.checkInterval ≠ s.checkInterval)
        ∨ (c.chatIDs ≠ [] ∧ s.chatIDs ≠ c.chatIDs)
        ∨ (c.responseStyle ≠ "" ∧ c.responseStyle ≠ s.responseStyle))) := by
  have hkey : (c.chatIDs ≠ [] ∧ s.chatIDs ≠ c.chatIDs) ↔
      (0 < c.chatIDs.length ∧ equalChatIDs s.chatIDs c.chatIDs = false) := by
    rw [List.length_pos_iff_ne_nil, equalChatIDs_eq_false_iff]
  simp only [hkey]
  by_cases h1 : c.token ≠ "" ∧ c.token ≠ s.token <;>
    by_cases h2 : 0 < c.checkInterval ∧ c.checkInterval ≠ s.checkInterval <;>
      by_cases h3 : 0 < c.chatIDs.length ∧ equalChatIDs s.chatIDs c.chatIDs = false <;>
        by_cases h4 : c.responseStyle ≠ "" ∧ c.responseStyle ≠ s.responseStyle <;>
          simp [UpdateSettings, h1, h2, h3, h4] <;> split_ifs <;> simp

/-- C1: UpdateSettings replaces each field exactly when the supplied value
is valid (token and style non-empty, interval positive, recipient list
non-empty) and differs from the stored value under order-sensitive
equality, keeps every other field, and returns changed = true exactly
when at least one field was replaced. -/
theorem updateSettings_replaces_iff_valid_and_different
    (s : TelegramBotSettings) (c : TelegramBotConfig) :
    ((UpdateSettings s c).1.token =
      if c.token ≠ "" ∧ c.token ≠ s.token then c.token else s.token)
    ∧ ((UpdateSettings s c).1.checkInterval =
      if 0 < c.checkInterval ∧ c.checkInterval ≠ s.checkInterval then c.checkInterval
      else s.checkInterval)
    ∧ ((UpdateSettings s c).1.chatIDs =
      if c.chatIDs ≠ [] ∧ s.chatIDs ≠ c.chatIDs then c.chatIDs else s.chatIDs)
    ∧ ((UpdateSettings s c).1.responseStyle =
      if c.responseStyle ≠ "" ∧ c.responseStyle ≠ s.responseStyle then c.responseStyle
      else s.responseStyle)
    ∧ ((UpdateSettings s c).1.active = s.active)
    ∧ ((UpdateSettings s c).2 = true ↔
      ((c.token ≠ "" ∧ c.token ≠ s.token)
        ∨ (0 < c.checkInterval ∧ c.checkInterval ≠ s.checkInterval)
        ∨ (c.chatIDs ≠ [] ∧ s.chatIDs ≠ c.chatIDs)
        ∨ (c.responseStyle ≠ "" ∧ c.responseStyle ≠ s.responseStyle))) := by
  obtain ⟨h1, h2, h3, h4, h5, _, h7⟩ := updateSettings_characterization s c
  exact ⟨h1, h2, h3, h4, h5, h7⟩

/-- C2: UpdateSettings closes the stop channel and installs a fresh one
(one stopGen step) exactly when it reports a change and the bot is
active; and on a partial update in which every field is absent, invalid
or equal to the stored value it reports changed = false and leaves the
stop channel alone. -/
theorem updateSettings_restart_signal_iff_changed_and_active
    (s : TelegramBotSettings) (c : TelegramBotConfig) :
    ((UpdateSettings s c).1.stopGen =
      if (UpdateSettings s c).2 = true ∧ s.active = true then s.stopGen + 1 else s.stopGen)
    ∧ (((c.token = "" ∨ c.token = s.token)
        ∧ (c.checkInterval ≤ 0 ∨ c.checkInterval = s.checkInterval)
        ∧ (c.chatIDs = [] ∨ c.chatIDs = s.chatIDs)
        ∧ (c.responseStyle = "" ∨ c.responseStyle = s.responseStyle)) →
      (UpdateSettings s c).2 = false ∧ (UpdateSettings s c).1.stopGen = s.stopGen) := by
  obtain ⟨_, _, _, _, _, h6, h7⟩ := updateSettings_characterization s c
  refine ⟨h6, fun hnoop => ?_⟩
  have hch : (UpdateSettings s c).2 = false := by
    rw [← Bool.not_eq_true, h7]
    push_neg
    obtain ⟨n1, n2, n3, n4⟩ := hnoop
    refine ⟨fun ht => ?_, fun hi => ?_, fun hl => ?_, fun hr => ?_⟩
    · rcases n1 with h | h
      · exact absurd h ht
      · exact h
    · rcases n2 with h | h
      · omega
      · exact h
    · rcases n3 with h | h
      · exact absurd h hl
      · exact h.symm
    · rcases n4 with h | h
      · exact absurd h hr
      · exact h
  rw [hch] at h6
  exact ⟨hch, by simpa using h6⟩

/-- Witness for C2: the all-defaults no-op update against the default
settings reports no change and does not touch the stop channel. -/
theorem updateSettings_restart_signal_witness :
    (UpdateSettings NewTelegramBotSettings
      { token := "", checkInterval := 0, chatIDs := [], responseStyle := "" }).2 = false
    ∧ (UpdateSettings NewTelegramBotSettings
      { token := "", checkInterval := 0, chatIDs := [], responseStyle := "" }).1.stopGen =
      NewTelegramBotSettings.stopGen :=
  (updateSettings_restart_signal_iff_changed_and_active NewTelegramBotSettings
    { token := "", checkInterval := 0, chatIDs := [], responseStyle := "" }).2
    (by refine ⟨Or.inl rfl, Or.inl ?_, Or.inl rfl, Or.inl rfl⟩; decide)

/-- AlertTracker state: the alerts map from a namespace/pod key to the
time (in nanoseconds) of the last alert, embedded as a partial function. -/
def Alerts : Type := String → Option Int

/-- NewAlertTracker: an empty alerts map. -/
def NewAlertTracker : Alerts := fun _ => none

/-- Map update, modelling assignment into the Go alerts map. -/
def insertAlert (a : Alerts) (k : String) (t : Int) : Alerts :=
  fun q => if q = k then some t else a q

/-- ShouldSendAlert from telegram_bot.go: true when no record exists for
the namespace/pod key or when at least the dedup window has elapsed
since the recorded time; a true result records now for the key.  The
float comparison now.Sub(last).Hours() >= 4 is embedded as the exact
comparison windowNanos <= now - last. -/
def ShouldSendAlert (a : Alerts) (ns podName : String) (now : Int) :
    Bool × Alerts :=
  let key := ns ++ "/" ++ podName
  match a key with
  | none => (true, insertAlert a key now)
  | some lastAlert =>
    if windowNanos ≤ now - lastAlert then (true, insertAlert a key now)
    else (false, a)

/-- CleanupOldAlerts from telegram_bot.go: delete every record strictly
older than now minus the dedup window (lastAlert.Before(threshold)). -/
def CleanupOldAlerts (a : Alerts) (now : Int) : Alerts :=
  fun key =>
    match a key with
    | some lastAlert => if lastAlert < now - windowNanos then none else some lastAlert
    | none => none

/-- C3: ShouldSendAlert answers true exactly when no record exists for the
namespace/pod key or the elapsed time is at least the 4-hour window; a
true answer records now for the key and changes nothing else, a false
answer leaves the tracker untouched; on a fresh tracker the answer is
true, and after a true answer a repeat call answers true exactly when
the window has elapsed again. -/
theorem shouldSendAlert_dedup_window_spec
    (a : Alerts) (ns pod : String) (now : Int) :
    ((ShouldSendAlert a ns pod now).1 = true ↔
      (a (ns ++ "/" ++ pod) = none
        ∨ ∃ last, a (ns ++ "/" ++ pod) = some last ∧ windowNanos ≤ now - last))
    ∧ ((ShouldSendAlert a ns pod now).1 = true →
      (ShouldSendAlert a ns pod now).2 = insertAlert a (ns ++ "/" ++ pod) now)
    ∧ ((ShouldSendAlert a ns pod now).1 = false →
      (ShouldSendAlert a ns pod now).2 = a)
    ∧ ((ShouldSendAlert NewAlertTracker ns pod now).1 = true)
    ∧ (∀ now₂ : Int, (ShouldSendAlert a ns pod now).1 = true →
      ((ShouldSendAlert (ShouldSendAlert a ns pod now).2 ns pod now₂).1 = true ↔
        windowNanos ≤ now₂ - now)) := by
  have hins : insertAlert a (ns ++ "/" ++ pod) now (ns ++ "/" ++ pod) = some now := by
    simp [insertAlert]
  refine ⟨?_, ?_, ?_, ?_, ?_⟩
  · cases h : a (ns ++ "/" ++ pod) with
    | none => simp [ShouldSendAlert, h]
    | some last =>
      simp only [ShouldSendAlert, h]
      split_ifs with hw <;> simp [hw]
  · cases h : a (ns ++ "/" ++ pod) with
    | none => intro _; simp [ShouldSendAlert, h]
    | some last =>
      simp only [ShouldSendAlert, h]
      split_ifs with hw <;> simp
  · cases h : a (ns ++ "/" ++ pod) with
    | none => simp [ShouldSendAlert, h]
    | some last =>
      simp only [ShouldSendAlert, h]
      split_ifs with hw <;> simp
  · simp [ShouldSendAlert, NewAlertTracker]
  · intro now₂ htrue
    have h2 : (ShouldSendAlert a ns pod now).2 = insertAlert a (ns ++ "/" ++ pod) now := by
      cases h : a (ns ++ "/" ++ pod) with
      | none => simp [ShouldSendAlert, h]
      | some last =>
        simp only [ShouldSendAlert, h] at htrue ⊢
        split_ifs with hw
        · simp
        · simp [hw] at htrue
    rw [h2]
    simp only [ShouldSendAlert, hins]
    split_ifs with hw <;> simp [hw]

/-- Witness for C3: on a fresh tracker the first alert for default/web at
time 0 passes, a repeat one nanosecond later is suppressed, and a repeat
a full window later passes again. -/
theorem shouldSendAlert_dedup_window_witness :
    (ShouldSendAlert NewAlertTracker "default" "web" 0).1 = true
    ∧ ((ShouldSendAlert (ShouldSendAlert NewAlertTracker "default" "web" 0).2
        "default" "web" 1).1 = true ↔ windowNanos ≤ 1 - 0)
    ∧ ((ShouldSendAlert (ShouldSendAlert NewAlertTracker "default" "web" 0).2
        "default" "web" windowNanos).1 = true ↔ windowNanos ≤ windowNanos - 0) := by
  have h := shouldSendAlert_dedup_window_spec NewAlertTracker "default" "web" 0
  have hfirst : (ShouldSendAlert NewAlertTracker "default" "web" 0).1 = true := h.2.2.2.1
  exact ⟨hfirst, h.2.2.2.2 1 hfirst, h.2.2.2.2 windowNanos hfirst⟩

/-- C9: CleanupOldAlerts removes a record exactly when its recorded time
is strictly before now minus the 4-hour window, and keeps every fresher
record with its time intact. -/
theorem cleanupOldAlerts_evicts_exactly_expired
    (a : Alerts) (now : Int) (key : String) :
    (CleanupOldAlerts a now key = none ↔
      (a key = none ∨ ∃ last, a key = some last ∧ last < now - windowNanos))
    ∧ (∀ last, a key = some last → ¬ last < now - windowNanos →
      CleanupOldAlerts a now key = some last) := by
  constructor
  · cases h : a key with
    | none => simp [CleanupOldAlerts, h]
    | some last =>
      simp only [CleanupOldAlerts, h]
      split_ifs with hw <;> simp [hw]
  · intro last hlast hfresh
    simp [CleanupOldAlerts, hlast, hfresh]

/-- Witness for C9: with the window of 4 hours, a record one nanosecond
older than the window is evicted and a record half a window old is kept. -/
theorem cleanupOldAlerts_evicts_exactly_expired_witness :
    CleanupOldAlerts
      (insertAlert (insertAlert NewAlertTracker "ns/stale" (-windowNanos - 1))
        "ns/fresh" (-(windowNanos / 2))) 0 "ns/stale" = none
    ∧ CleanupOldAlerts
      (insertAlert (insertAlert NewAlertTracker "ns/stale" (-windowNanos - 1))
        "ns/fresh" (-(windowNanos / 2))) 0 "ns/fresh" = some (-(windowNanos / 2)) := by
  constructor
  · exact (cleanupOldAlerts_evicts_exactly_expired _ 0 "ns/stale").1.mpr
      (Or.inr ⟨-windowNanos - 1, by simp [insertAlert], by simp [windowNanos]⟩)
  · exact (cleanupOldAlerts_evicts_exactly_expired _ 0 "ns/fresh").2
      (-(windowNanos / 2)) (by simp [insertAlert])
      (by simp only [windowNanos, AlertDeduplicationWindow, nanosPerHour]; omega)

/-- PodResourceInfo from llm.go.  The two float64 percentage fields of the
source are not read by any function verified here and are omitted; the
unread numeric fields default to zero for brevity of concrete values. -/
structure PodResourceInfo where
  name : String
  resourceName : String := ""
  resourceType : String := ""
  cpuRequest : Int := 0
  memoryRequest : Int := 0
  cpuLimit : Int := 0
  memoryLimit : Int := 0
  cpuUsage : String := ""
  memoryUsage : String := ""
  status : String
  replicas : Int := 0
deriving DecidableEq

/-- ResourceRecommendationResponse from llm.go; the Go namespaces map is
embedded as an association list in iteration order. -/
structure ResourceRecommendationResponse where
  message : String
  namespaces : List (String × List PodResourceInfo)
deriving DecidableEq

/-- Per-namespace severity statistics loop of formatTechnicalAlertMessage:
(critical, warning, info) counts. -/
def severityCounts (pods : List PodResourceInfo) : Nat × Nat × Nat :=
  pods.foldl
    (fun acc pod =>
      if pod.status = "critical" then (acc.1 + 1, acc.2.1, acc.2.2)
      else if pod.status = "warning" then (acc.1, acc.2.1 + 1, acc.2.2)
      else (acc.1, acc.2.1, acc.2.2 + 1))
    (0, 0, 0)

/-- The pod-name collection loop of formatTechnicalAlertMessage: up to 5
critical pod names, and up to 5 warning pod names gathered only while no
critical pod has been seen yet. -/
def collectTopPods (pods : List PodResourceInfo) : List String × List String :=
  pods.foldl
    (fun acc pod =>
      if pod.status = "critical" ∧ acc.1.length < 5 then (acc.1 ++ [pod.name], acc.2)
      else if pod.status = "warning" ∧ acc.2.length < 5 ∧ acc.1.length = 0 then
        (acc.1, acc.2 ++ [pod.name])
      else acc)
    ([], [])

/-- The pod-name list section of one namespace block: critical pods when
any were collected, otherwise warning pods, otherwise nothing. -/
def podListSection (pods : List PodResourceInfo) : String :=
  let tops := collectTopPods pods
  if tops.1 ≠ [] then
    "\n*Критические поды:*\n" ++ String.join (tops.1.map fun n => "- `" ++ n ++ "`\n")
  else if tops.2 ≠ [] then
    "\n*Поды с предупреждениями:*\n" ++ String.join (tops.2.map fun n => "- `" ++ n ++ "`\n")
  else ""

/-- One namespace block of formatTechnicalAlertMessage; empty namespaces
are skipped (the continue branch of the source loop).  The sequential
WriteString calls of the source are joined in order. -/
def namespaceSection (p : String × List PodResourceInfo) : String :=
  if p.2.length = 0 then ""
  else
    String.join
      [ "*Namespace:* `" ++ p.1 ++ "`\n",
        "*Количество проблемных подов:* " ++ toString p.2.length ++ "\n",
        (if 0 < (severityCounts p.2).1 then
          "*Критические (требуют немедленного вмешательства):* "
            ++ toString (severityCounts p.2).1 ++ "\n"
        else ""),
        (if 0 < (severityCounts p.2).2.1 then
          "*Предупреждения (требуют внимания):* "
            ++ toString (severityCounts p.2).2.1 ++ "\n"
        else ""),
        (if 0 < (severityCounts p.2).2.2 then
          "*Информационные сообщения:* " ++ toString (severityCounts p.2).2.2 ++ "\n"
        else ""),
        podListSection p.2,
        "\n" ]

/-- formatTechnicalAlertMessage from the extended revision: header with
total count, scan timestamp line, then one block per namespace in map
iteration order.  The result of time.Now().Format is passed in as now. -/
def formatTechnicalAlertMessage (recommendation : ResourceRecommendationResponse)
    (totalPods : Nat) (now : String) : String :=
  "*Отчет о состоянии ресурсов Kubernetes*\n\n"
  ++ ("*Обнаружено:* " ++ toString totalPods ++ " проблемных подов требующих внимания\n")
  ++ ("*Время сканирования:* " ++ now ++ "\n\n")
  ++ recommendation.namespaces.foldl (fun acc p => acc ++ namespaceSection p) ""

/-- The problem-detection loop of checkResourcesAndSendAlerts: whether any
namespace has a non-empty pod list, and the total of their lengths. -/
def countProblematicPods (namespaces : List (String × List PodResourceInfo)) :
    Bool × Nat :=
  namespaces.foldl
    (fun acc p => if 0 < p.2.length then (true, acc.2 + p.2.length) else acc)
    (false, 0)

deriving instance DecidableEq for Except

/-- One delivery attempt of the dispatch loop: recipient, text and token
passed to sendTelegramSummaryMessage, together with the transport's
result for this attempt. -/
structure SendAttempt where
  chatID : Int
  text : String
  token : String
  result : Except String Unit
deriving DecidableEq

/-- checkResourcesAndSendAlerts from the extended revision.  The collector
and LLM collaborators and the notification transport are passed as
explicit results; the tracker argument is carried exactly as in the
source, which never consults it.  The value is the list of send attempts
of this cycle, in order. -/
def checkResourcesAndSendAlerts (tracker : Alerts)
    (collectPodResourceData : Except String (List (String × List PodResourceInfo)))
    (getLLMResourceRecommendations :
      List (String × List PodResourceInfo) → Except String ResourceRecommendationResponse)
    (settings : TelegramBotSettings) (now : String)
    (sendTelegramSummaryMessage : Int → String → String → Except String Unit) :
    List SendAttempt :=
  match collectPodResourceData with
  | .error _ => []
  | .ok podResourceData =>
    match getLLMResourceRecommendations podResourceData with
    | .error _ => []
    | .ok recommendation =>
      let found := countProblematicPods recommendation.namespaces
      if found.1 = false then []
      else
        let message := formatTechnicalAlertMessage recommendation found.2 now
        let token := settings.token
        let chatIDs := settings.chatIDs
        let chatIDs' := if chatIDs.length = 0 then ChatIDs else chatIDs
        chatIDs'.map fun chatID =>
          { chatID := chatID, text := message, token := token,
            result := sendTelegramSummaryMessage chatID message token }

theorem countProblematicPods_fold (l : List (String × List PodResourceInfo))
    (b : Bool) (n : Nat) :
    (l.foldl (fun acc p => if 0 < p.2.length then (true, acc.2 + p.2.length) else acc)
      (b, n)).1 = (b || l.any fun p => decide (0 < p.2.length)) := by
  induction l generalizing b n with
  | nil => simp
  | cons x xs ih =>
    simp only [List.foldl_cons, List.any_cons]
    by_cases h : 0 < x.2.length
    · simp [h, ih]
    · simp [h, ih]

theorem countProblematicPods_fst_iff (l : List (String × List PodResourceInfo)) :
    (countProblematicPods l).1 = true ↔ ∃ p ∈ l, p.2 ≠ [] := by
  rw [countProblematicPods, countProblematicPods_fold]
  simp [List.length_pos_iff_ne_nil]

/-- C4: the dispatch path never consults the dedup tracker: two cycles
run from arbitrary tracker states but identical collaborator results
produce exactly the same send attempts (same recipients, same message,
same results). -/
theorem checkCycle_independent_of_tracker (tracker₁ tracker₂ : Alerts)
    (collect : Except String (List (String × List PodResourceInfo)))
    (llm : List (String × List PodResourceInfo) →
      Except String ResourceRecommendationResponse)
    (settings : TelegramBotSettings) (now : String)
    (transport : Int → String → String → Except String Unit) :
    checkResourcesAndSendAlerts tracker₁ collect llm settings now transport =
      checkResourcesAndSendAlerts tracker₂ collect llm settings now transport := rfl

/-- C5: a cycle attempts a send only when the collector succeeded, the
LLM succeeded and some namespace has a flagged workload; a collector
error, an LLM error, or an all-empty recommendation each end the cycle
with no send attempt. -/
theorem checkCycle_sends_only_on_success_and_flagged (tracker : Alerts)
    (collect : Except String (List (String × List PodResourceInfo)))
    (llm : List (String × List PodResourceInfo) →
      Except String ResourceRecommendationResponse)
    (settings : TelegramBotSettings) (now : String)
    (transport : Int → String → String → Except String Unit) :
    (checkResourcesAndSendAlerts tracker collect llm settings now transport ≠ [] →
      ∃ d, collect = .ok d ∧ ∃ rec, llm d = .ok rec ∧ ∃ p ∈ rec.namespaces, p.2 ≠ [])
    ∧ (∀ e, collect = .error e →
      checkResourcesAndSendAlerts tracker collect llm settings now transport = [])
    ∧ (∀ d e, collect = .ok d → llm d = .error e →
      checkResourcesAndSendAlerts tracker collect llm settings now transport = [])
    ∧ (∀ d rec, collect = .ok d → llm d = .ok rec → (∀ p ∈ rec.namespaces, p.2 = []) →
      checkResourcesAndSendAlerts tracker collect llm settings now transport = []) := by
  refine ⟨?_, ?_, ?_, ?_⟩
  · intro hne
    cases hc : collect with
    | error e => simp [checkResourcesAndSendAlerts, hc] at hne
    | ok d =>
      cases hl : llm d with
      | error e => simp [checkResourcesAndSendAlerts, hc, hl] at hne
      | ok rec =>
        refine ⟨d, rfl, rec, hl, ?_⟩
        rw [← countProblematicPods_fst_iff]
        by_contra hflag
        have hfalse : (countProblematicPods rec.namespaces).1 = false := by
          cases h : (countProblematicPods rec.namespaces).1
          · rfl
          · exact absurd h hflag
        simp [checkResourcesAndSendAlerts, hc, hl, hfalse] at hne
  · intro e hc
    simp [checkResourcesAndSendAlerts, hc]
  · intro d e hc hl
    simp [checkResourcesAndSendAlerts, hc, hl]
  · intro d rec hc hl hempty
    have hfalse : (countProblematicPods rec.namespaces).1 = false := by
      cases h : (countProblematicPods rec.namespaces).1
      · rfl
      · exact absurd (fun p hp => hempty p hp)
          (by simpa using (countProblematicPods_fst_iff rec.namespaces).mp h)
    simp [checkResourcesAndSendAlerts, hc, hl, hfalse]

/-- Witness for C5: a failed collector call produces no send attempt. -/
theorem checkCycle_sends_only_on_success_witness :
    checkResourcesAndSendAlerts NewAlertTracker (.error "collector down")
      (fun _ => .error "unused") NewTelegramBotSettings "2025-01-01 00:00:00 UTC"
      (fun _ _ _ => .ok ()) = [] :=
  (checkCycle_sends_only_on_success_and_flagged NewAlertTracker (.error "collector down")
    (fun _ => .error "unused") NewTelegramBotSettings "2025-01-01 00:00:00 UTC"
    (fun _ _ _ => .ok ())).2.1 "collector down" rfl

/-- C7: when a cycle dispatches, it attempts one send for every recipient
of the effective list in order, and the attempt for each recipient
carries the transport result for that recipient alone, whatever the
transport returns for the others. -/
theorem checkCycle_attempts_every_recipient (tracker : Alerts)
    (collect : Except String (List (String × List PodResourceInfo)))
    (llm : List (String × List PodResourceInfo) →
      Except String ResourceRecommendationResponse)
    (settings : TelegramBotSettings) (now : String)
    (transport : Int → String → String → Except String Unit)
    (d : List (String × List PodResourceInfo)) (rec : ResourceRecommendationResponse)
    (hc : collect = .ok d) (hl : llm d = .ok rec)
    (hp : (countProblematicPods rec.namespaces).1 = true) :
    checkResourcesAndSendAlerts tracker collect llm settings now transport =
      (if settings.chatIDs.length = 0 then ChatIDs else settings.chatIDs).map
        fun chatID =>
          { chatID := chatID
            text := formatTechnicalAlertMessage rec (countProblematicPods rec.namespaces).2 now
            token := settings.token
            result := transport chatID
              (formatTechnicalAlertMessage rec (countProblematicPods rec.namespaces).2 now)
              settings.token } := by
  subst hc
  simp [checkResourcesAndSendAlerts, hl, hp]

/-- C10: the defaults satisfy the invariant that the poll interval is
positive and the recipient list is non-empty, every settings update
preserves it, and a dispatching cycle substitutes the built-in default
recipient list whenever the stored recipient list is empty. -/
theorem settings_invariant_preserved_and_default_recipients :
    (0 < NewTelegramBotSettings.checkInterval ∧ NewTelegramBotSettings.chatIDs ≠ [])
    ∧ (∀ (s : TelegramBotSettings) (c : TelegramBotConfig),
      0 < s.checkInterval → 0 < (UpdateSettings s c).1.checkInterval)
    ∧ (∀ (s : TelegramBotSettings) (c : TelegramBotConfig),
      s.chatIDs ≠ [] → (UpdateSettings s c).1.chatIDs ≠ [])
    ∧ (∀ (tracker : Alerts)
      (collect : Except String (List (String × List PodResourceInfo)))
      (llm : List (String × List PodResourceInfo) →
        Except String ResourceRecommendationResponse)
      (settings : TelegramBotSettings) (now : String)
      (transport : Int → String → String → Except String Unit),
      settings.chatIDs = [] →
      (checkResourcesAndSendAlerts tracker collect llm settings now transport = []
        ∨ (checkResourcesAndSendAlerts tracker collect llm settings now transport).map
            SendAttempt.chatID = ChatIDs)) := by
  refine ⟨⟨by decide, by decide⟩, ?_, ?_, ?_⟩
  · intro s c hs
    obtain ⟨_, h2, _⟩ := updateSettings_characterization s c
    rw [h2]
    split_ifs with h
    · exact h.1
    · exact hs
  · intro s c hs
    obtain ⟨_, _, h3, _⟩ := updateSettings_characterization s c
    rw [h3]
    split_ifs with h
    · exact h.1
    · exact hs
  · intro tracker collect llm settings now transport hempty
    cases hc : collect with
    | error e => left; simp [checkResourcesAndSendAlerts, hc]
    | ok d =>
      cases hl : llm d with
      | error e => left; simp [checkResourcesAndSendAlerts, hc, hl]
      | ok rec =>
        cases hflag : (countProblematicPods rec.namespaces).1 with
        | false => left; simp [checkResourcesAndSendAlerts, hc, hl, hflag]
        | true =>
          right
          simp only [checkResourcesAndSendAlerts, hc, hl, hflag, hempty]
          simp [List.map_map]
          rfl

/-- Witness for C10: an arbitrary update against the default settings
keeps the interval positive and the recipient list non-empty, and a
cycle running with an emptied recipient list but a failing collector
makes no attempt (the left disjunct at a concrete input). -/
theorem settings_invariant_preserved_witness :
    0 < (UpdateSettings NewTelegramBotSettings
      { token := "t2", checkInterval := -5, chatIDs := [], responseStyle := "" }).1.checkInterval
    ∧ (UpdateSettings NewTelegramBotSettings
      { token := "t2", checkInterval := -5, chatIDs := [], responseStyle := "" }).1.chatIDs ≠ [] := by
  have h := settings_invariant_preserved_and_default_recipients
  exact ⟨h.2.1 NewTelegramBotSettings _ (by decide), h.2.2.1 NewTelegramBotSettings _ (by decide)⟩

/-- Concrete fixtures for the C7 witness scenario. -/
def c7Settings : TelegramBotSettings :=
  { NewTelegramBotSettings with chatIDs := [111, 222] }

/-- Flagged pod for the C7 witness scenario. -/
def c7Rec : ResourceRecommendationResponse :=
  { message := "scale up"
    namespaces := [("default", [{ name := "api-server-0", status := "critical" }])] }

/-- Transport for the C7 witness scenario: fails for chat 111, succeeds
for chat 222. -/
def c7Transport : Int → String → String → Except String Unit :=
  fun chatID _ _ => if chatID = 111 then .error "transport failure" else .ok ()

/-- Witness for C7: with recipients 111 and 222 and a transport failing
for 111, the cycle still attempts 222 and reports its success. -/
theorem checkCycle_attempts_every_recipient_witness :
    (checkResourcesAndSendAlerts NewAlertTracker (.ok c7Rec.namespaces)
      (fun _ => .ok c7Rec) c7Settings "2025-01-01 00:00:00 UTC" c7Transport).map
      (fun a => (a.chatID, a.result)) =
      [(111, .error "transport failure"), (222, .ok ())] := by
  have h := checkCycle_attempts_every_recipient NewAlertTracker (.ok c7Rec.namespaces)
    (fun _ => .ok c7Rec) c7Settings "2025-01-01 00:00:00 UTC" c7Transport
    c7Rec.namespaces c7Rec rfl rfl (by decide)
  rw [h]
  rfl

/-- HTTP outcome of the configuration endpoint after a successful decode:
either an error status or a success response reporting whether anything
changed. -/
inductive ConfigHTTPResult where
  | httpError (message : String) (status : Nat)
  | accepted (changed : Bool)
deriving DecidableEq

/-- handleTelegramBotConfigRequest from telegram_bot.go, after method
check and JSON decode: reject with 400 when token, checkInterval and
chatIDs are all absent or invalid (the responseStyle field is not
consulted), otherwise apply the update and answer 200 with the changed
flag. -/
def handleTelegramBotConfigRequest (s : TelegramBotSettings)
    (config : TelegramBotConfig) : ConfigHTTPResult × TelegramBotSettings :=
  if config.token = "" ∧ config.checkInterval ≤ 0 ∧ config.chatIDs.length = 0 then
    (.httpError "At least one of token, checkInterval or chatIDs must be specified" 400, s)
  else
    let r := UpdateSettings s config
    (.accepted r.2, r.1)

/-- Counterexample for C8: a decodable request supplying only a valid,
differing style hint is rejected with status 400, because the handler
checks only token, checkInterval and chatIDs. -/
theorem handleConfig_style_only_rejected_counterexample :
    (TelegramBotConfig.mk "" 0 [] "Деловой стиль").responseStyle ≠ ""
    ∧ (TelegramBotConfig.mk "" 0 [] "Деловой стиль").responseStyle ≠
        NewTelegramBotSettings.responseStyle
    ∧ (handleTelegramBotConfigRequest NewTelegramBotSettings
        (TelegramBotConfig.mk "" 0 [] "Деловой стиль")).1 =
      .httpError "At least one of token, checkInterval or chatIDs must be specified" 400 := by
  refine ⟨by decide, by decide, ?_⟩
  rfl

/-- C8 amended: the endpoint rejects with 400 exactly the decodable
requests in which token, interval and recipient list are all absent or
invalid; the style hint is not consulted, and every request with a
valid token, interval or recipient list is accepted and applied. -/
theorem handleConfig_rejects_iff_core_fields_absent
    (s : TelegramBotSettings) (c : TelegramBotConfig) :
    ((handleTelegramBotConfigRequest s c).1 =
      .httpError "At least one of token, checkInterval or chatIDs must be specified" 400
      ↔ (c.token = "" ∧ c.checkInterval ≤ 0 ∧ c.chatIDs = []))
    ∧ (¬ (c.token = "" ∧ c.checkInterval ≤ 0 ∧ c.chatIDs = []) →
      (handleTelegramBotConfigRequest s c).1 = .accepted (UpdateSettings s c).2
      ∧ (handleTelegramBotConfigRequest s c).2 = (UpdateSettings s c).1) := by
  have hlen : c.chatIDs.length = 0 ↔ c.chatIDs = [] := List.length_eq_zero
  constructor
  · rw [handleTelegramBotConfigRequest]
    split_ifs with h
    · simp only [true_iff]
      exact ⟨h.1, h.2.1, hlen.mp h.2.2⟩
    · refine ⟨fun habs => absurd habs (by simp), fun hcond => ?_⟩
      exact absurd ⟨hcond.1, hcond.2.1, hlen.mpr hcond.2.2⟩ h
  · intro h
    rw [handleTelegramBotConfigRequest]
    split_ifs with h2
    · exact absurd ⟨h2.1, h2.2.1, hlen.mp h2.2.2⟩ h
    · exact ⟨rfl, rfl⟩

/-- Witness for the amended C8: a request changing only the interval is
accepted and applied. -/
theorem handleConfig_rejects_iff_core_fields_absent_witness :
    (handleTelegramBotConfigRequest NewTelegramBotSettings
      (TelegramBotConfig.mk "" 60 [] "")).1 =
      .accepted (UpdateSettings NewTelegramBotSettings
        (TelegramBotConfig.mk "" 60 [] "")).2
    ∧ (handleTelegramBotConfigRequest NewTelegramBotSettings
      (TelegramBotConfig.mk "" 60 [] "")).2 =
      (UpdateSettings NewTelegramBotSettings (TelegramBotConfig.mk "" 60 [] "")).1 :=
  (handleConfig_rejects_iff_core_fields_absent NewTelegramBotSettings
    (TelegramBotConfig.mk "" 60 [] "")).2 (by decide)

/-- The message s contains pat as a contiguous substring. -/
def containsSubstr (s pat : String) : Prop := pat.data <:+: s.data

theorem infix_app_right {α : Type} {a b : List α} (c : List α) (h : a <:+: b) :
    a <:+: b ++ c := by
  obtain ⟨s, t, heq⟩ := h
  exact ⟨s, t ++ c, by rw [← heq]; simp⟩

theorem infix_app_left {α : Type} {a b : List α} (c : List α) (h : a <:+: b) :
    a <:+: c ++ b := by
  obtain ⟨s, t, heq⟩ := h
  exact ⟨c ++ s, t, by rw [← heq]; simp⟩

theorem foldl_ns_preserves_infix (l : List (String × List PodResourceInfo))
    (init : String) (pat : List Char) (h : pat <:+: init.data) :
    pat <:+: (l.foldl (fun acc q => acc ++ namespaceSection q) init).data := by
  induction l generalizing init with
  | nil => exact h
  | cons x xs ih =>
    simp only [List.foldl_cons]
    exact ih (init ++ namespaceSection x)
      (by rw [String.data_append]; exact infix_app_right _ h)

theorem namespaceSection_infix_of_mem (l : List (String × List PodResourceInfo))
    (init : String) (p : String × List PodResourceInfo) (hp : p ∈ l) :
    (namespaceSection p).data <:+:
      (l.foldl (fun acc q => acc ++ namespaceSection q) init).data := by
  induction l generalizing init with
  | nil => cases hp
  | cons x xs ih =>
    simp only [List.foldl_cons]
    rcases List.mem_cons.mp hp with rfl | hmem
    · exact foldl_ns_preserves_infix xs (init ++ namespaceSection p) _
        (by rw [String.data_append]; exact infix_app_left _ (List.infix_refl _))
    · exact ih (init ++ namespaceSection x) hmem

theorem stringFoldlAppend_data (l : List String) (init : String) :
    (l.foldl (· ++ ·) init).data = init.data ++ (l.map String.data).flatten := by
  induction l generalizing init with
  | nil => simp
  | cons x xs ih =>
    simp only [List.foldl_cons, List.map_cons, List.flatten_cons]
    rw [ih (init ++ x), String.data_append, List.append_assoc]

theorem stringJoin_infix_of_mem (l : List String) (s : String) (hs : s ∈ l) :
    s.data <:+: (String.join l).data := by
  rw [String.join, stringFoldlAppend_data]
  exact infix_app_left _ (List.infix_of_mem_flatten (List.mem_map_of_mem String.data hs))

theorem collectTopPods_fold_bound (pods : List PodResourceInfo)
    (acc : List String × List String) (h1 : acc.1.length ≤ 5) (h2 : acc.2.length ≤ 5) :
    (pods.foldl
      (fun acc pod =>
        if pod.status = "critical" ∧ acc.1.length < 5 then (acc.1 ++ [pod.name], acc.2)
        else if pod.status = "warning" ∧ acc.2.length < 5 ∧ acc.1.length = 0 then
          (acc.1, acc.2 ++ [pod.name])
        else acc)
      acc).1.length ≤ 5
    ∧ (pods.foldl
      (fun acc pod =>
        if pod.status = "critical" ∧ acc.1.length < 5 then (acc.1 ++ [pod.name], acc.2)
        else if pod.status = "warning" ∧ acc.2.length < 5 ∧ acc.1.length = 0 then
          (acc.1, acc.2 ++ [pod.name])
        else acc)
      acc).2.length ≤ 5 := by
  induction pods generalizing acc with
  | nil => exact ⟨h1, h2⟩
  | cons x xs ih =>
    simp only [List.foldl_cons]
    split_ifs with ha hb
    · exact ih _ (by simp; omega) h2
    · exact ih _ h1 (by simp; omega)
    · exact ih _ h1 h2

theorem collectTopPods_le_five (pods : List PodResourceInfo) :
    (collectTopPods pods).1.length ≤ 5 ∧ (collectTopPods pods).2.length ≤ 5 :=
  collectTopPods_fold_bound pods ([], []) (by simp) (by simp)

theorem severityCounts_fold (pods : List PodResourceInfo) (acc : Nat × Nat × Nat) :
    (pods.foldl
      (fun acc pod =>
        if pod.status = "critical" then (acc.1 + 1, acc.2.1, acc.2.2)
        else if pod.status = "warning" then (acc.1, acc.2.1 + 1, acc.2.2)
        else (acc.1, acc.2.1, acc.2.2 + 1))
      acc) =
    (acc.1 + (pods.countP fun pod => decide (pod.status = "critical")),
     acc.2.1 + (pods.countP fun pod => decide (pod.status = "warning")),
     acc.2.2 + (pods.countP fun pod =>
       decide (pod.status ≠ "critical" ∧ pod.status ≠ "warning"))) := by
  induction pods generalizing acc with
  | nil => simp
  | cons x xs ih =>
    simp only [List.foldl_cons, List.countP_cons]
    by_cases hc : x.status = "critical"
    · rw [if_pos hc, ih]
      simp [hc]
      omega
    · by_cases hw : x.status = "warning"
      · rw [if_neg hc, if_pos hw, ih]
        simp [hc, hw]
        omega
      · rw [if_neg hc, if_neg hw, ih]
        simp [hc, hw]
        omega

theorem severityCounts_pos_iff (pods : List PodResourceInfo) :
    (0 < (severityCounts pods).1 ↔ ∃ pod ∈ pods, pod.status = "critical")
    ∧ (0 < (severityCounts pods).2.1 ↔ ∃ pod ∈ pods, pod.status = "warning")
    ∧ (0 < (severityCounts pods).2.2 ↔
      ∃ pod ∈ pods, pod.status ≠ "critical" ∧ pod.status ≠ "warning") := by
  rw [severityCounts, severityCounts_fold]
  refine ⟨?_, ?_, ?_⟩ <;> simp [List.countP_pos]

theorem namespaceSection_contains (p : String × List PodResourceInfo) (hne : p.2 ≠ []) :
    containsSubstr (namespaceSection p) ("*Namespace:* `" ++ p.1 ++ "`\n")
    ∧ containsSubstr (namespaceSection p)
      ("*Количество проблемных подов:* " ++ toString p.2.length ++ "\n")
    ∧ (0 < (severityCounts p.2).1 → containsSubstr (namespaceSection p)
      ("*Критические (требуют немедленного вмешательства):* "
        ++ toString (severityCounts p.2).1 ++ "\n"))
    ∧ (0 < (severityCounts p.2).2.1 → containsSubstr (namespaceSection p)
      ("*Предупреждения (требуют внимания):* " ++ toString (severityCounts p.2).2.1 ++ "\n"))
    ∧ (0 < (severityCounts p.2).2.2 → containsSubstr (namespaceSection p)
      ("*Информационные сообщения:* " ++ toString (severityCounts p.2).2.2 ++ "\n"))
    ∧ ((collectTopPods p.2).1 ≠ [] → ∀ n ∈ (collectTopPods p.2).1,
      containsSubstr (namespaceSection p) ("- `" ++ n ++ "`\n"))
    ∧ ((collectTopPods p.2).1 = [] → ∀ n ∈ (collectTopPods p.2).2,
      containsSubstr (namespaceSection p) ("- `" ++ n ++ "`\n")) := by
  have hlen : ¬ p.2.length = 0 := by simpa [List.length_eq_zero] using hne
  have hpl : (podListSection p.2).data <:+: (namespaceSection p).data := by
    rw [namespaceSection, if_neg hlen]
    exact stringJoin_infix_of_mem _ _ (by simp)
  refine ⟨?_, ?_, ?_, ?_, ?_, ?_, ?_⟩
  · rw [containsSubstr, namespaceSection, if_neg hlen]
    exact stringJoin_infix_of_mem _ _ (by simp)
  · rw [containsSubstr, namespaceSection, if_neg hlen]
    exact stringJoin_infix_of_mem _ _ (by simp)
  · intro h
    rw [containsSubstr, namespaceSection, if_neg hlen]
    exact stringJoin_infix_of_mem _ _ (by simp [h])
  · intro h
    rw [containsSubstr, namespaceSection, if_neg hlen]
    exact stringJoin_infix_of_mem _ _ (by simp [h])
  · intro h
    rw [containsSubstr, namespaceSection, if_neg hlen]
    exact stringJoin_infix_of_mem _ _ (by simp [h])
  · intro htop n hn
    have hline : ("- `" ++ n ++ "`\n").data <:+: (podListSection p.2).data := by
      simp only [podListSection]
      rw [if_pos htop, String.data_append]
      exact infix_app_left _
        (stringJoin_infix_of_mem _ _ (List.mem_map_of_mem (fun m => "- `" ++ m ++ "`\n") hn))
    exact hline.trans hpl
  · intro htop n hn
    have hwarnne : (collectTopPods p.2).2 ≠ [] := List.ne_nil_of_mem hn
    have hline : ("- `" ++ n ++ "`\n").data <:+: (podListSection p.2).data := by
      simp only [podListSection]
      rw [if_neg (by simp [htop]), if_pos hwarnne, String.data_append]
      exact infix_app_left _
        (stringJoin_infix_of_mem _ _ (List.mem_map_of_mem (fun m => "- `" ++ m ++ "`\n") hn))
    exact hline.trans hpl

/-- C6: the technical alert message contains a header with the total
flagged count and the scan timestamp and, for every namespace with a
non-empty flagged list, the namespace header, the per-namespace count,
a count line for each severity tier present, and a list of at most five
of the most severe pod names (critical names when any, otherwise
warning names). -/
theorem formatTechnicalAlertMessage_contents
    (rec : ResourceRecommendationResponse) (totalPods : Nat) (now : String) :
    containsSubstr (formatTechnicalAlertMessage rec totalPods now)
      ("*Обнаружено:* " ++ toString totalPods ++ " проблемных подов требующих внимания\n")
    ∧ containsSubstr (formatTechnicalAlertMessage rec totalPods now)
      ("*Время сканирования:* " ++ now ++ "\n\n")
    ∧ ∀ p ∈ rec.namespaces, p.2 ≠ [] →
      containsSubstr (formatTechnicalAlertMessage rec totalPods now)
        ("*Namespace:* `" ++ p.1 ++ "`\n")
      ∧ containsSubstr (formatTechnicalAlertMessage rec totalPods now)
        ("*Количество проблемных подов:* " ++ toString p.2.length ++ "\n")
      ∧ ((∃ pod ∈ p.2, pod.status = "critical") →
        containsSubstr (formatTechnicalAlertMessage rec totalPods now)
          ("*Критические (требуют немедленного вмешательства):* "
            ++ toString (severityCounts p.2).1 ++ "\n"))
      ∧ ((∃ pod ∈ p.2, pod.status = "warning") →
        containsSubstr (formatTechnicalAlertMessage rec totalPods now)
          ("*Предупреждения (требуют внимания):* "
            ++ toString (severityCounts p.2).2.1 ++ "\n"))
      ∧ ((∃ pod ∈ p.2, pod.status ≠ "critical" ∧ pod.status ≠ "warning") →
        containsSubstr (formatTechnicalAlertMessage rec totalPods now)
          ("*Информационные сообщения:* " ++ toString (severityCounts p.2).2.2 ++ "\n"))
      ∧ (collectTopPods p.2).1.length ≤ 5
      ∧ (collectTopPods p.2).2.length ≤ 5
      ∧ ((collectTopPods p.2).1 ≠ [] → ∀ n ∈ (collectTopPods p.2).1,
        containsSubstr (formatTechnicalAlertMessage rec totalPods now) ("- `" ++ n ++ "`\n"))
      ∧ ((collectTopPods p.2).1 = [] → ∀ n ∈ (collectTopPods p.2).2,
        containsSubstr (formatTechnicalAlertMessage rec totalPods now)
          ("- `" ++ n ++ "`\n")) := by
  refine ⟨?_, ?_, ?_⟩
  · rw [containsSubstr, formatTechnicalAlertMessage]
    simp only [String.data_append]
    exact infix_app_right _ (infix_app_right _ (infix_app_left _ (List.infix_refl _)))
  · rw [containsSubstr, formatTechnicalAlertMessage]
    simp only [String.data_append]
    exact infix_app_right _ (infix_app_left _ (List.infix_refl _))
  · intro p hp hne
    have hsec := namespaceSection_contains p hne
    have hF : (namespaceSection p).data <:+:
        (rec.namespaces.foldl (fun acc q => acc ++ namespaceSection q) "").data :=
      namespaceSection_infix_of_mem _ "" p hp
    have hmain : ∀ pat : String, containsSubstr (namespaceSection p) pat →
        containsSubstr (formatTechnicalAlertMessage rec totalPods now) pat := by
      intro pat hpat
      rw [containsSubstr, formatTechnicalAlertMessage]
      simp only [String.data_append]
      exact infix_app_left _ (hpat.trans hF)
    refine ⟨hmain _ hsec.1, hmain _ hsec.2.1, ?_, ?_, ?_,
      (collectTopPods_le_five p.2).1, (collectTopPods_le_five p.2).2, ?_, ?_⟩
    · intro hex
      exact hmain _ (hsec.2.2.1 (((severityCounts_pos_iff p.2).1).mpr hex))
    · intro hex
      exact hmain _ (hsec.2.2.2.1 (((severityCounts_pos_iff p.2).2.1).mpr hex))
    · intro hex
      exact hmain _ (hsec.2.2.2.2.1 (((severityCounts_pos_iff p.2).2.2).mpr hex))
    · intro htop n hn
      exact hmain _ (hsec.2.2.2.2.2.1 htop n hn)
    · intro htop n hn
      exact hmain _ (hsec.2.2.2.2.2.2 htop n hn)

/-- Concrete recommendation for the C6 witness scenario: three flagged
pods across two namespaces with severities critical, warning, warning. -/
def c6Rec : ResourceRecommendationResponse :=
  { message := "review resources"
    namespaces :=
      [ ("payments", [{ name := "db-0", status := "critical" }]),
        ("web", [{ name := "fe-1", status := "warning" },
                 { name := "fe-2", status := "warning" }]) ] }

/-- Witness for C6: for the concrete scenario the message contains the
total count 3, both namespace headers and a critical-count line of 1. -/
theorem formatTechnicalAlertMessage_contents_witness :
    containsSubstr (formatTechnicalAlertMessage c6Rec 3 "2025-01-01 12:00:00 UTC")
      "*Обнаружено:* 3 проблемных подов требующих внимания\n"
    ∧ containsSubstr (formatTechnicalAlertMessage c6Rec 3 "2025-01-01 12:00:00 UTC")
      "*Namespace:* `payments`\n"
    ∧ containsSubstr (formatTechnicalAlertMessage c6Rec 3 "2025-01-01 12:00:00 UTC")
      "*Namespace:* `web`\n"
    ∧ containsSubstr (formatTechnicalAlertMessage c6Rec 3 "2025-01-01 12:00:00 UTC")
      "*Критические (требуют немедленного вмешательства):* 1\n" := by
  have h := formatTechnicalAlertMessage_contents c6Rec 3 "2025-01-01 12:00:00 UTC"
  have hp1 := h.2.2 ("payments", [{ name := "db-0", status := "critical" }])
    (by simp [c6Rec]) (by simp)
  have hp2 := h.2.2 ("web", [{ name := "fe-1", status := "warning" },
      { name := "fe-2", status := "warning" }]) (by simp [c6Rec]) (by simp)
  exact ⟨h.1, hp1.1, hp2.1,
    hp1.2.2.1 ⟨{ name := "db-0", status := "critical" }, by simp, rfl⟩⟩

end Kubedeck
